import Mathlib

/-!
Shallow embedding of the composing (hierarchical) federated executor
(src/tensorflow_federated/python/core/impl/executors/composing_executor.py).

The composing node orchestrates one parent executor and an ordered list of
child executors.  Parent and child executors are external collaborators
specified only at their interface boundary; we model them as ideal leaf
executors: a handle is the materialized data it was created from, and the
leaf interpretation of serialized tensorflow computations is given by an
explicit evaluator.  All composing-node logic (value representation,
materialization, placement routing, the intrinsic protocols, the
cardinality cache) is translated from the source.
-/

namespace ComposingExec

/-- Placement literals (placement_literals.SERVER / CLIENTS). -/
inductive Placement
  | server
  | clients
deriving DecidableEq, Repr

/-- Structural type descriptors (computation_types): function types with an
optional parameter, named-tuple types, federated types with a placement and
an all_equal flag, and an abstract scalar tensor type (tf.int32). -/
inductive TffType
  | tensorInt
  | func (param : Option TffType) (result : TffType)
  | namedTuple (elems : List (Option String × TffType))
  | federated (member : TffType) (placement : Placement) (allEqual : Bool)
deriving Repr

/-- Concrete (materialized) data: scalars, flat lists, and named tuples. -/
inductive Raw
  | int (n : Int)
  | list (xs : List Raw)
  | tuple (elems : List (Option String × Raw))
deriving Repr

/-- Payloads of serialized tensorflow computations, with an explicit leaf
evaluator below: a binary elementwise add (tf.add), a no-argument scalar
constant, a unary add-a-constant kernel, and an opaque payload. -/
inductive TfPayload
  | binaryAdd
  | constant (c : Int)
  | addConst (c : Int)
  | opaqueTf (id : Nat)
deriving DecidableEq, Repr

/-- A serialized computation (pb.Computation), discriminated by the oneof
field that is set: a tensorflow payload, the lambda produced by
computation_factory.create_lambda_identity, an intrinsic reference, or any
other oneof kind. -/
inductive PbComp
  | tensorflow (p : TfPayload)
  | lambdaIdentity
  | intrinsicRef (uri : String)
  | otherKind (kind : String)
deriving DecidableEq, Repr

/-- pb.Computation.WhichOneof, as used by create_value and create_call. -/
def PbComp.whichComputation : PbComp → String
  | .tensorflow _ => "tensorflow"
  | .lambdaIdentity => "lambda"
  | .intrinsicRef _ => "intrinsic"
  | .otherKind k => k

/-- The internal representation of a CompositeValue (docstring of
CompositeValue, lines 43-67): an intrinsic operator reference, an unparsed
serialized computation, a single value embedded in the parent executor, a
per-child list of values embedded in the child executors, or an anonymous
tuple of such representations.  Parent and child handles are ideal: a
handle is the concrete data it materializes to. -/
inductive InternalRep
  | intrinsicDef (uri : String)
  | comp (c : PbComp)
  | delegate (h : Raw)
  | childList (hs : List Raw)
  | anonTuple (elems : List (Option String × InternalRep))
deriving Repr

/-- A value embedded in the composite executor: an internal representation
together with its type signature (CompositeValue, lines 40-82). -/
structure CompositeValue where
  rep : InternalRep
  typeSig : TffType
deriving Repr

/-- Error kinds raised by the composing executor: TypeError (including
py_typecheck.check_type failures), ValueError (including
py_typecheck.check_len failures), NotImplementedError, and IndexError. -/
inductive Err
  | typeError (msg : String)
  | valueError (msg : String)
  | notImplementedError (msg : String)
  | indexError (msg : String)
deriving DecidableEq, Repr

mutual

/-- Materialization of one element of an anonymous-tuple representation
(_compute_element, lines 102-109): an element must be a nested tuple or a
single executor value; the ideal delegate handle materializes to itself. -/
def computeElem : InternalRep → Except Err Raw
  | .delegate h => .ok h
  | .anonTuple es => (computeElems es).map Raw.tuple
  | _ => .error (.typeError "expected AnonymousTuple or ExecutorValue")

/-- Materialization of the elements of an anonymous tuple in insertion
order (_compute_tuple, lines 111-115). -/
def computeElems : List (Option String × InternalRep) → Except Err (List (Option String × Raw))
  | [] => .ok []
  | (k, v) :: rest => do
      let r ← computeElem v
      let rs ← computeElems rest
      .ok ((k, r) :: rs)

end

/-- Checks that every per-child materialization result is itself a list
(the check_type in the loop of lines 95-97). -/
def listParts : List Raw → Except Err (List (List Raw))
  | [] => .ok []
  | .list xs :: rest => (listParts rest).map (xs :: ·)
  | _ :: _ => .error (.typeError "expected a list from each child")

/-- CompositeValue.compute (lines 84-117), additionally reporting the
indices of the per-child handles it materializes: a single embedded value
materializes at the parent; a per-child list requires a federated type and
materializes only index 0 when all_equal, or every index, concatenating
the per-child lists in child order, when not; an anonymous tuple
materializes elementwise. -/
def CompositeValue.compute (v : CompositeValue) : Except Err (Raw × List Nat) :=
  match v.rep with
  | .delegate h => .ok (h, [])
  | .childList hs =>
      match v.typeSig with
      | .federated _ _ allEq =>
          if allEq then
            match hs with
            | [] => .error (.indexError "list index out of range")
            | h :: _ => .ok (h, [0])
          else
            (listParts hs).map fun parts => (Raw.list parts.flatten, List.range hs.length)
      | _ => .error (.typeError "expected FederatedType")
  | .anonTuple es => (computeElems es).map fun rs => (Raw.tuple rs, [])
  | _ => .error (.typeError "expected list, tuple or embedded value")

/-- The contiguous partition of a flat participant list by per-child
cardinalities (the offset loop of create_value, lines 258-264): each child
receives the slice value[offset : offset + num_clients]. -/
def sliceByCards : List Nat → List Raw → List (List Raw)
  | [], _ => []
  | n :: rest, xs => xs.take n :: sliceByCards rest (xs.drop n)

/-- create_value for a federated type placed at CLIENTS with
all_equal=false (lines 253-265), with the cardinalities already resolved
(passed as `cards`): the input must be a list whose length equals the sum
of the cardinalities (py_typecheck.check_len, line 257) before any slice
is dispatched; each child receives its contiguous slice via its own
create_value (one call per child, counted in the second component), and
the ideal child handle materializes to the slice it was created from. -/
def createValueClientsNotAllEq (cards : List Nat) (value : Raw) (ts : TffType) :
    Except Err CompositeValue × Nat :=
  match value with
  | .list xs =>
      if xs.length = cards.sum then
        (.ok ⟨.childList ((sliceByCards cards xs).map Raw.list), ts⟩, cards.length)
      else
        (.error (.valueError "wrong length of the list of values"), 0)
  | _ => (.error (.typeError "expected list"), 0)

/-- Modelled from the spec: the parent executor capability create_selection
of the interface contract, selecting a tuple element by index or by name,
with exactly one of the two given. -/
def parentCreateSelection (h : Raw) (ts : TffType) (index : Option Nat) (name : Option String) :
    Except Err CompositeValue :=
  match h, ts with
  | .tuple es, .namedTuple tes =>
      match index, name with
      | some i, none =>
          match es[i]?, tes[i]? with
          | some e, some t => .ok ⟨.delegate e.2, t.2⟩
          | _, _ => .error (.indexError "tuple index out of range")
      | none, some nm =>
          match es.find? (fun e => e.1 = some nm), tes.find? (fun t => t.1 = some nm) with
          | some e, some t => .ok ⟨.delegate e.2, t.2⟩
          | _, _ => .error (.valueError "no element with the requested name")
      | _, _ => .error (.valueError "exactly one of index or name must be given")
  | _, _ => .error (.typeError "expected a tuple value")

/-- Positional access into an anonymous tuple
(source.internal_representation[index]). -/
def anonGet? (es : List (Option String × α)) (i : Nat) : Option α :=
  (es[i]?).map Prod.snd

/-- Named access into an anonymous tuple (getattr(..., name)). -/
def anonGetName? (es : List (Option String × α)) (nm : String) : Option α :=
  (es.find? (fun e => e.1 = some nm)).map Prod.snd

/-- create_selection (lines 333-352): the source type must be a named
tuple; a source embedded in the parent delegates the selection to the
parent; a source represented as an anonymous tuple is selected directly
by index when an index is given (any name given alongside is never
consulted), and only otherwise by name; getattr with name None raises a
TypeError. -/
def createSelection (source : CompositeValue) (index : Option Nat) (name : Option String) :
    Except Err CompositeValue :=
  match source.typeSig with
  | .namedTuple tes =>
      match source.rep with
      | .delegate h => parentCreateSelection h (.namedTuple tes) index name
      | .anonTuple es =>
          match index with
          | some i =>
              match anonGet? es i, anonGet? tes i with
              | some r, some t => .ok ⟨r, t⟩
              | _, _ => .error (.indexError "tuple index out of range")
          | none =>
              match name with
              | some nm =>
                  match anonGetName? es nm, anonGetName? tes nm with
                  | some r, some t => .ok ⟨r, t⟩
                  | _, _ => .error (.valueError "no element with the requested name")
              | none => .error (.typeError "attribute name must be string")
      | _ => .error (.typeError "expected AnonymousTuple")
  | _ => .error (.typeError "expected NamedTupleType")

/-- create_tuple (lines 316-331): pure bookkeeping pairing the element
representations with the corresponding named-tuple type. -/
def createTuple (elems : List (Option String × CompositeValue)) : CompositeValue :=
  ⟨.anonTuple (elems.map fun e => (e.1, e.2.rep)),
   .namedTuple (elems.map fun e => (e.1, e.2.typeSig))⟩

/-- Modelled from the spec: a child executor owning n clients evaluating
the counting computation built by _num_clients (lines 180-195), the
federated sum of the all-equal constant 1 over its clients. -/
def childCountProbe (n : Nat) : Int :=
  (List.replicate n (1 : Int)).sum

/-- Modelled from the spec: a child executor of the cardinality protocol,
characterized by the number of clients it owns and by whether its counting
computation fails (a delegate failure surfacing through the probe). -/
structure ChildSpec where
  clients : Nat
  probeFails : Bool

/-- The outcome of the per-child counting computation (_num_clients,
lines 180-195) on one child. -/
def probeChild (c : ChildSpec) : Except Err Int :=
  if c.probeFails then .error (.valueError "child cardinality computation failed")
  else .ok (childCountProbe c.clients)

/-- _get_cardinalities_helper (lines 178-198): probe every child
concurrently; the first failure fails the gathered task. -/
def cardinalitiesHelper (children : List ChildSpec) : Except Err (List Int) :=
  children.mapM probeChild

/-- The cardinality cache (self._cardinalities_task, line 164): None before
the first call, afterwards the stored outcome of the single helper task. -/
abbrev CardCache := Option (Except Err (List Int))

/-- One call to _get_cardinalities (lines 166-203): when no task is cached,
the helper task is started and stored, and its outcome (success or failure)
is returned and stays cached; otherwise the cached outcome is returned
unchanged.  The third component records whether this call started the
counting computation.  In the source the check-and-set of
self._cardinalities_task happens with no intervening await point, so any
interleaving of concurrent callers on the event loop is equivalent to a
sequence of these steps. -/
def getCardinalities (children : List ChildSpec) (cache : CardCache) :
    Except Err (List Int) × CardCache × Bool :=
  match cache with
  | some r => (r, some r, false)
  | none => (cardinalitiesHelper children, some (cardinalitiesHelper children), true)

/-- A sequence of k calls to _get_cardinalities against the same composing
executor instance, returning every observed result, the final cache state,
and how many of the calls started the counting computation. -/
def runCardinalityCalls (children : List ChildSpec) (cache : CardCache) :
    Nat → List (Except Err (List Int)) × CardCache × Nat
  | 0 => ([], cache, 0)
  | k + 1 =>
      let step := getCardinalities children cache
      let rest := runCardinalityCalls children step.2.1 k
      (step.1 :: rest.1, rest.2.1, (if step.2.2 then 1 else 0) + rest.2.2)

/-- Modelled from the spec: the leaf interpretation of a serialized
computation applied as a binary operator to two scalars (the external
executor capability evaluating a function body). -/
def evalBinaryComp : PbComp → Raw → Raw → Except Err Raw
  | .tensorflow .binaryAdd, .int a, .int b => .ok (.int (a + b))
  | _, _, _ => .error (.valueError "cannot apply the computation as a binary operator")

/-- Modelled from the spec: the leaf interpretation of a serialized
computation applied as a unary function. -/
def evalUnaryComp : PbComp → Raw → Except Err Raw
  | .lambdaIdentity, r => .ok r
  | .tensorflow (.addConst c), .int a => .ok (.int (a + c))
  | _, _ => .error (.valueError "cannot apply the computation as a unary function")

/-- Modelled from the spec: a child executor evaluating a no-argument
function shipped to it by the eval protocol (the create_call of _child_fn,
lines 442-447, seen from the child side). -/
def childEvalCall : PbComp → Except Err Raw
  | .tensorflow (.constant c) => .ok (.int c)
  | _ => .error (.valueError "child cannot evaluate the function")

/-- _eval (lines 429-454), instrumented with the number of operations the
composing node issues to the parent executor and to the child executors
(second and third components).  The argument must be of a function type
with a serialized-computation representation; the eval intrinsic and the
function are then constructed at EVERY child and called there (two
create_value calls and one create_call per child, lines 442-450),
regardless of the requested placement; the parent executor is never used;
the per-child call handles are wrapped as a per-child list typed with the
requested placement and all_equal flag (lines 452-454). -/
def evalIntrinsic (numChildren : Nat) (arg : CompositeValue) (placement : Placement)
    (allEqual : Bool) : Except Err CompositeValue × Nat × Nat :=
  match arg.typeSig with
  | .func _ res =>
      match arg.rep with
      | .comp fn =>
          match childEvalCall fn with
          | .ok r =>
              (.ok ⟨.childList (List.replicate numChildren r),
                    .federated res placement allEqual⟩, 0, 3 * numChildren)
          | .error e => (.error e, 0, 3 * numChildren)
      | _ => (.error (.typeError "expected pb.Computation"), 0, 0)
  | _ => (.error (.typeError "expected FunctionType"), 0, 0)

/-- _compute_intrinsic_federated_eval_at_server (lines 461-464): _eval with
the SERVER placement and all_equal=true. -/
def fedEvalAtServer (numChildren : Nat) (arg : CompositeValue) :
    Except Err CompositeValue × Nat × Nat :=
  evalIntrinsic numChildren arg .server true

/-- Modelled from the spec: a child executor running the local
federated_map of fn over the slice of participants it owns (the map
protocol constructs fn and a local map operator at the child and invokes
them, _child_fn of _map, lines 491-496, seen from the child side). -/
def childMapCall (fn : PbComp) (h : Raw) : Except Err Raw :=
  match h with
  | .list xs => (xs.mapM (evalUnaryComp fn)).map Raw.list
  | x => evalUnaryComp fn x

/-- _map (lines 466-502), instrumented with the number of operations the
composing node issues to child executors (second component).  The argument
must be a 2-tuple of a function and a federated value; requesting
all_equal=true on a value whose federated type has all_equal=false raises
a ValueError (lines 477-479) before the function or value representations
are even inspected and before any child executor is contacted; otherwise
the function and a local map operator are constructed and called at every
child owning a slice (four operations per child: two create_value, one
create_tuple, one create_call), and the per-child results are wrapped with
the requested all_equal flag. -/
def mapIntrinsic (numChildren : Nat) (arg : CompositeValue) (allEqualOpt : Option Bool) :
    Except Err CompositeValue × Nat :=
  match arg.rep, arg.typeSig with
  | .anonTuple [(_, fnRep), (_, valRep)], .namedTuple [(_, fnTy), (_, valTy)] =>
      match fnTy with
      | .func _ fnRes =>
          match valTy with
          | .federated _ pl valAllEq =>
              let bad := match allEqualOpt with
                | none => false
                | some b => b && !valAllEq
              if bad then
                (.error (.valueError "cannot map a non all_equal argument into an all_equal result"), 0)
              else
                let allEq := match allEqualOpt with
                  | none => valAllEq
                  | some b => b
                match fnRep with
                | .comp fnPb =>
                    match valRep with
                    | .childList hs =>
                        let slice := hs.take numChildren
                        match slice.mapM (childMapCall fnPb) with
                        | .ok rs =>
                            (.ok ⟨.childList rs, .federated fnRes pl allEq⟩, 4 * slice.length)
                        | .error e => (.error e, 4 * slice.length)
                    | _ => (.error (.typeError "expected list"), 0)
                | _ => (.error (.typeError "expected pb.Computation"), 0)
          | _ => (.error (.typeError "expected FederatedType"), 0)
      | _ => (.error (.typeError "expected FunctionType"), 0)
  | _, _ => (.error (.typeError "expected a 2-tuple argument"), 0)

/-- _compute_intrinsic_federated_map_all_equal (lines 508-510): _map with
all_equal=True requested. -/
def fedMapAllEqual (numChildren : Nat) (arg : CompositeValue) :
    Except Err CompositeValue × Nat :=
  mapIntrinsic numChildren arg (some true)

/-- Modelled from the spec: a child executor running the local aggregate
shipped to it by _child_fn of federated_aggregate (lines 379-388), folding
its participants with the accumulate computation starting from the
materialized zero and then applying the identity report it was given. -/
def childLocalAggregate (v zero : Raw) (acc rpt : PbComp) : Except Err Raw :=
  match v with
  | .list ps => do
      let folded ← ps.foldlM (fun s x => evalBinaryComp acc s x) zero
      evalUnaryComp rpt folded
  | _ => .error (.typeError "expected a list of participants at the child")

/-- _compute_intrinsic_federated_aggregate (lines 354-404).  The argument
must be a 5-tuple (value, zero, accumulate, merge, report) whose value is
a per-child list with one entry per child (py_typecheck.check_len, line
364); the zero is materialized via create_selection at index 1 followed by
compute (line 374); each child folds its slice with accumulate starting
from zero and reports it through the identity lambda
(computation_factory.create_lambda_identity, line 365); the per-child
partial results are folded sequentially in child order at the parent with
merge (lines 397-401), and report is applied at the parent to the folded
result, producing a SERVER all_equal=true value of the report result type
(lines 402-404). -/
def fedAggregate (numChildren : Nat) (arg : CompositeValue) : Except Err CompositeValue :=
  match arg.rep, arg.typeSig with
  | .anonTuple [(_, valRep), (_, zeroRep), (_, accRep), (_, mergeRep), (_, repRep)],
    .namedTuple [(_, _valTy), (_, zeroTy), (_, _accTy), (_, _mergeTy), (_, repTy)] =>
      match repTy with
      | .func _ repResTy =>
          match valRep with
          | .childList hs =>
              if hs.length = numChildren then
                match (CompositeValue.mk zeroRep zeroTy).compute with
                | .error e => .error e
                | .ok zeroPair =>
                    match accRep, mergeRep, repRep with
                    | .comp accPb, .comp mergePb, .comp repPb =>
                        match hs.mapM
                            (fun v => childLocalAggregate v zeroPair.1 accPb PbComp.lambdaIdentity) with
                        | .error e => .error e
                        | .ok childVals =>
                            match childVals with
                            | [] => .error (.indexError "list index out of range")
                            | v0 :: rest =>
                                match rest.foldlM (fun a b => evalBinaryComp mergePb a b) v0 with
                                | .error e => .error e
                                | .ok merged =>
                                    (evalUnaryComp repPb merged).map fun out =>
                                      ⟨.delegate out, .federated repResTy .server true⟩
                    | _, _, _ => .error (.typeError "expected serialized computations")
              else .error (.valueError "wrong number of per-child values")
          | _ => .error (.typeError "expected a per-child list of values")
      | _ => .error (.typeError "expected a function type for report")
  | _, _ => .error (.typeError "expected a 5-tuple argument")

/-- executor_utils.embed_tf_scalar_constant at the composing executor:
creating the constant-returning tensorflow computation and calling it
delegates to the parent (create_call, lines 282-296), so the embedded
constant is a parent-materialized scalar of the member type. -/
def embedScalarConstant (member : TffType) (c : Int) : CompositeValue :=
  ⟨.delegate (.int c), member⟩

/-- executor_utils.embed_tf_binary_operator with tf.add at the composing
executor: the serialized binary-add computation is wrapped unparsed by
create_value (tensorflow kind, lines 216-219). -/
def embedBinaryAddOperator (member : TffType) : CompositeValue :=
  ⟨.comp (.tensorflow .binaryAdd),
   .func (some (.namedTuple [(none, member), (none, member)])) member⟩

/-- computation_factory.create_lambda_identity wrapped by create_value
(lambda kind, lines 216-219). -/
def lambdaIdentityValue (member : TffType) : CompositeValue :=
  ⟨.comp .lambdaIdentity, .func (some member) member⟩

/-- _compute_intrinsic_federated_sum (lines 542-557): the argument must be
a CLIENTS-placed federated value; the executor embeds the scalar constant
0 of the member type, the binary tf.add operator, and the identity lambda
on the member type, builds the 5-tuple (arg, zero, plus, plus, identity)
with create_tuple, and hands it to federated_aggregate. -/
def fedSum (numChildren : Nat) (arg : CompositeValue) : Except Err CompositeValue :=
  match arg.typeSig with
  | .federated member .clients _ =>
      fedAggregate numChildren (createTuple
        [(none, arg),
         (none, embedScalarConstant member 0),
         (none, embedBinaryAddOperator member),
         (none, embedBinaryAddOperator member),
         (none, lambdaIdentityValue member)])
  | _ => .error (.typeError "expected a federated type placed at CLIENTS")

/-- The aggregation argument exactly as the spec words it for
federated_sum, written from the spec sentence for the refinement
comparison: the 5-tuple of the argument itself, the additive-identity
constant 0 of the member type (a parent-materialized scalar), elementwise
addition as accumulate, elementwise addition again as merge, and the
identity function on the member type as report. -/
def specSumAggregateArg (arg : CompositeValue) (member : TffType) : CompositeValue :=
  createTuple
    [(none, arg),
     (none, ⟨.delegate (.int 0), member⟩),
     (none, ⟨.comp (.tensorflow .binaryAdd),
             .func (some (.namedTuple [(none, member), (none, member)])) member⟩),
     (none, ⟨.comp (.tensorflow .binaryAdd),
             .func (some (.namedTuple [(none, member), (none, member)])) member⟩),
     (none, ⟨.comp .lambdaIdentity, .func (some member) member⟩)]

/-- intrinsic_defs.uri_to_intrinsic_def restricted to the intrinsics known
to this executor family: returns the recognized uri or nothing. -/
def uriToIntrinsicDef? (uri : String) : Option String :=
  if uri ∈ ["federated_aggregate", "federated_apply", "federated_broadcast",
            "federated_eval_at_clients", "federated_eval_at_server",
            "federated_map", "federated_map_all_equal", "federated_mean",
            "federated_sum", "federated_secure_sum",
            "federated_value_at_clients", "federated_value_at_server",
            "federated_weighted_mean", "federated_zip_at_clients",
            "federated_zip_at_server"] then some uri else none

/-- create_value on a serialized computation payload (lines 216-229):
payloads whose oneof kind is tensorflow or lambda are wrapped unparsed;
an intrinsic reference is resolved through uri_to_intrinsic_def (an
unrecognized uri is a ValueError) and re-dispatched through the
IntrinsicDef branch of create_value (lines 209-215; the external
type-compatibility check of that branch, type_analysis, is out of scope
and modelled as accepting); any other oneof kind raises
NotImplementedError (lines 227-229). -/
def createValuePb (c : PbComp) (ts : TffType) : Except Err CompositeValue :=
  match c with
  | .tensorflow _ => .ok ⟨.comp c, ts⟩
  | .lambdaIdentity => .ok ⟨.comp c, ts⟩
  | .intrinsicRef uri =>
      match uriToIntrinsicDef? uri with
      | some u => .ok ⟨.intrinsicDef u, ts⟩
      | none => .error (.valueError "encountered an unrecognized intrinsic")
  | .otherKind k => .error (.notImplementedError k)

/-- Modelled from the spec: the parent executor evaluating a delegated
tensorflow computation on the fully-collapsed argument (the leaf executor
capability behind the delegation of create_call, lines 284-296). -/
def parentCallTensorflow (p : TfPayload) (argRaw : Option Raw) : Except Err Raw :=
  match p, argRaw with
  | .constant c, none => .ok (.int c)
  | .addConst c, some (.int a) => .ok (.int (a + c))
  | .binaryAdd, some (.tuple [(_, .int a), (_, .int b)]) => .ok (.int (a + b))
  | _, _ => .error (.valueError "parent cannot apply the payload")

/-- The result type of a function value as used when wrapping the result
of a delegated call. -/
def funcResultType : TffType → TffType
  | .func _ r => r
  | t => t

/-- create_call when the function representation is a serialized
computation (lines 282-300): only payloads whose oneof kind is tensorflow
are delegated to the parent executor (the function and the
fully-collapsed argument are materialized there and invoked, lines
284-296); every other payload kind raises a ValueError stating that
directly calling computations of that kind is unsupported (lines
297-300). -/
def createCallComp (c : PbComp) (ts : TffType) (argRaw : Option Raw) :
    Except Err CompositeValue :=
  match c with
  | .tensorflow p =>
      (parentCallTensorflow p argRaw).map fun r => ⟨.delegate r, funcResultType ts⟩
  | _ => .error (.valueError "directly calling computations of this kind is unsupported")

theorem sliceByCards_length (cards : List Nat) :
    ∀ xs : List Raw, (sliceByCards cards xs).length = cards.length := by
  induction cards with
  | nil => intro xs; rfl
  | cons n rest ih => intro xs; simp [sliceByCards, ih]

theorem listParts_map_list : ∀ ss : List (List Raw), listParts (ss.map Raw.list) = .ok ss
  | [] => rfl
  | s :: rest => by simp [listParts, listParts_map_list rest, Except.map]

theorem sliceByCards_flatten (cards : List Nat) :
    ∀ xs : List Raw, xs.length = cards.sum → (sliceByCards cards xs).flatten = xs := by
  induction cards with
  | nil =>
      intro xs h
      simp only [List.sum_nil] at h
      simp [sliceByCards, List.length_eq_zero.mp h]
  | cons n rest ih =>
      intro xs h
      simp only [List.sum_cons] at h
      have hd : (xs.drop n).length = rest.sum := by
        simp only [List.length_drop]
        omega
      simp only [sliceByCards, List.flatten_cons]
      rw [ih (xs.drop n) hd, List.take_append_drop]

theorem runCardinalityCalls_cached (children : List ChildSpec) (r : Except Err (List Int)) :
    ∀ k, runCardinalityCalls children (some r) k = (List.replicate k r, some r, 0) := by
  intro k
  induction k with
  | zero => rfl
  | succ k ih => simp [runCardinalityCalls, getCardinalities, ih, List.replicate_succ]

/-- A sanity check of the aggregation model against the worked example of
the spec: federated_sum over children with cardinalities 2 and 3 and
per-participant values all 1 materializes a SERVER value of 5. -/
theorem fedSum_spec_example :
    fedSum 2
        ⟨.childList [Raw.list [.int 1, .int 1], Raw.list [.int 1, .int 1, .int 1]],
         .federated .tensorInt .clients false⟩
      = .ok ⟨.delegate (.int 5), .federated .tensorInt .server true⟩ := rfl

/-- Claim C1: contrary to the claim, when create_call invokes the
federated_eval_at_server operator on a no-argument function value (here a
tensorflow computation returning the constant 5, with 2 child executors),
the code evaluates the function once per CHILD executor: it issues 6
operations to the children, zero operations to the parent, and wraps the
per-child results as a SERVER all_equal=true value represented as a
per-child list instead of a single parent handle. -/
theorem federated_eval_at_server_runs_on_children :
    fedEvalAtServer 2 ⟨.comp (.tensorflow (.constant 5)), .func none .tensorInt⟩
      = (.ok ⟨.childList [.int 5, .int 5], .federated .tensorInt .server true⟩, 0, 6) := rfl

/-- Claim C2: contrary to the claimed invariant, the composing executor
does produce value handles whose type is a SERVER-placed federated type
but whose internal representation is a per-child list: for every child
count n+1 and constant c, federated_eval_at_server returns such a handle
(with one entry per child and no parent delegate). -/
theorem server_value_represented_as_child_list (n : Nat) (c : Int) :
    (fedEvalAtServer (n + 1) ⟨.comp (.tensorflow (.constant c)), .func none .tensorInt⟩).1
      = .ok ⟨.childList (List.replicate (n + 1) (.int c)), .federated .tensorInt .server true⟩ :=
  rfl

/-- Claim C3: for every list whose length equals the sum of the resolved
child cardinalities, constructing a CLIENTS all_equal=false federated
value with create_value and materializing it with compute returns exactly
the original list, element for element and in order (every child handle
being materialized): contiguous partitioning by child order followed by
concatenation in child order is the identity. -/
theorem clients_value_roundtrip (cards : List Nat) (xs : List Raw) (m : TffType)
    (h : xs.length = cards.sum) :
    ((createValueClientsNotAllEq cards (Raw.list xs) (.federated m .clients false)).1.bind
        CompositeValue.compute)
      = .ok (Raw.list xs, List.range cards.length) := by
  simp [createValueClientsNotAllEq, h, Except.bind, CompositeValue.compute,
        listParts_map_list, sliceByCards_flatten cards xs h, sliceByCards_length,
        Except.map]

theorem clients_value_roundtrip_witness :
    ((createValueClientsNotAllEq [2, 3]
        (Raw.list [.int 1, .int 2, .int 3, .int 4, .int 5])
        (.federated .tensorInt .clients false)).1.bind CompositeValue.compute)
      = .ok (Raw.list [.int 1, .int 2, .int 3, .int 4, .int 5], List.range 2) :=
  clients_value_roundtrip [2, 3] [.int 1, .int 2, .int 3, .int 4, .int 5] .tensorInt
    (by decide)

/-- Claim C4: cardinality resolution is single-flight per composing
executor instance: across any sequence of k+1 calls against a fresh cache
(and any interleaving of concurrent callers, which the event loop
serializes into such a sequence because the check-and-set of the cached
task has no intervening await point), exactly one call starts the
per-child counting computation, every caller observes the same outcome,
and that outcome, success or failure, stays cached unchanged. -/
theorem cardinalities_single_flight (children : List ChildSpec) (k : Nat) :
    runCardinalityCalls children none (k + 1)
      = (List.replicate (k + 1) (cardinalitiesHelper children),
         some (cardinalitiesHelper children), 1) := by
  simp [runCardinalityCalls, getCardinalities, runCardinalityCalls_cached,
        List.replicate_succ]

/-- Claim C5: for every list whose length differs from the sum of the
resolved child cardinalities, create_value with a CLIENTS all_equal=false
federated type fails with the length-mismatch ValueError and issues zero
create_value calls on child executors. -/
theorem clients_value_length_mismatch_no_dispatch (cards : List Nat) (xs : List Raw)
    (m : TffType) (h : xs.length ≠ cards.sum) :
    createValueClientsNotAllEq cards (Raw.list xs) (.federated m .clients false)
      = (.error (.valueError "wrong length of the list of values"), 0) := by
  simp [createValueClientsNotAllEq, h]

theorem clients_value_length_mismatch_no_dispatch_witness :
    createValueClientsNotAllEq [2, 3] (Raw.list [.int 1])
        (.federated .tensorInt .clients false)
      = (.error (.valueError "wrong length of the list of values"), 0) :=
  clients_value_length_mismatch_no_dispatch [2, 3] [.int 1] .tensorInt (by decide)

/-- Claim C6, counterexample: contrary to the claim that create_selection
fails whenever both an index and a name are given, supplying both to a
structured-tuple source succeeds: the index is used and the name is
ignored (here the given name does not even occur in the tuple). -/
theorem create_selection_both_given_succeeds :
    createSelection
        ⟨.anonTuple [(some "a", .delegate (.int 1)), (none, .delegate (.int 2))],
         .namedTuple [(some "a", .tensorInt), (none, .tensorInt)]⟩
        (some 0) (some "b")
      = .ok ⟨.delegate (.int 1), .tensorInt⟩ := rfl

/-- Claim C6, amended: on a structured-tuple source, create_selection with
neither an index nor a name fails (with a TypeError from the getattr on
None, not an explicit unsupported-operation check); when an index is
given, selection is by index and any name supplied alongside is ignored,
so the call succeeds with both given; a name alone selects by name. -/
theorem create_selection_index_precedence (es : List (Option String × InternalRep))
    (tes : List (Option String × TffType)) (i : Nat) (nm : String)
    (r rn : InternalRep) (t tn : TffType)
    (h1 : anonGet? es i = some r) (h2 : anonGet? tes i = some t)
    (h3 : anonGetName? es nm = some rn) (h4 : anonGetName? tes nm = some tn) :
    createSelection ⟨.anonTuple es, .namedTuple tes⟩ none none
        = .error (.typeError "attribute name must be string")
    ∧ createSelection ⟨.anonTuple es, .namedTuple tes⟩ (some i) (some nm) = .ok ⟨r, t⟩
    ∧ createSelection ⟨.anonTuple es, .namedTuple tes⟩ (some i) none = .ok ⟨r, t⟩
    ∧ createSelection ⟨.anonTuple es, .namedTuple tes⟩ none (some nm) = .ok ⟨rn, tn⟩ := by
  refine ⟨rfl, ?_, ?_, ?_⟩ <;> simp [createSelection, h1, h2, h3, h4]

theorem create_selection_index_precedence_witness :
    createSelection
        ⟨.anonTuple [(some "a", .delegate (.int 1)), (some "b", .delegate (.int 2))],
         .namedTuple [(some "a", .tensorInt), (some "b", .tensorInt)]⟩
        none none
        = .error (.typeError "attribute name must be string")
    ∧ createSelection
        ⟨.anonTuple [(some "a", .delegate (.int 1)), (some "b", .delegate (.int 2))],
         .namedTuple [(some "a", .tensorInt), (some "b", .tensorInt)]⟩
        (some 0) (some "b")
        = .ok ⟨.delegate (.int 1), .tensorInt⟩
    ∧ createSelection
        ⟨.anonTuple [(some "a", .delegate (.int 1)), (some "b", .delegate (.int 2))],
         .namedTuple [(some "a", .tensorInt), (some "b", .tensorInt)]⟩
        (some 0) none
        = .ok ⟨.delegate (.int 1), .tensorInt⟩
    ∧ createSelection
        ⟨.anonTuple [(some "a", .delegate (.int 1)), (some "b", .delegate (.int 2))],
         .namedTuple [(some "a", .tensorInt), (some "b", .tensorInt)]⟩
        none (some "b")
        = .ok ⟨.delegate (.int 2), .tensorInt⟩ :=
  create_selection_index_precedence
    [(some "a", .delegate (.int 1)), (some "b", .delegate (.int 2))]
    [(some "a", .tensorInt), (some "b", .tensorInt)]
    0 "b" (.delegate (.int 1)) (.delegate (.int 2)) .tensorInt .tensorInt rfl rfl rfl rfl

/-- Claim C7: invoking federated_map_all_equal (all_equal=true requested)
on an argument whose federated type has all_equal=false fails with the
ValueError of lines 477-479, and zero operations (create_value,
create_tuple or create_call) are issued to any child executor, whatever
the function and value representations are. -/
theorem map_all_equal_mismatch_fails_before_dispatch (n : Nat)
    (k1 k2 t1 t2 : Option String) (fnRep valRep : InternalRep)
    (fp : Option TffType) (fr member : TffType) (pl : Placement) :
    fedMapAllEqual n
        ⟨.anonTuple [(k1, fnRep), (k2, valRep)],
         .namedTuple [(t1, .func fp fr), (t2, .federated member pl false)]⟩
      = (.error (.valueError "cannot map a non all_equal argument into an all_equal result"),
         0) := rfl

/-- Claim C8: for every CLIENTS-placed argument value (any representation,
any member type, any all_equal flag), federated_sum produces exactly the
result of federated_aggregate applied to the 5-tuple of the argument, the
additive-identity constant 0 of the member type, elementwise addition as
accumulate, elementwise addition as merge, and the identity function on
the member type as report. -/
theorem federated_sum_refines_federated_aggregate (n : Nat) (rep : InternalRep)
    (member : TffType) (ae : Bool) :
    fedSum n ⟨rep, .federated member .clients ae⟩
      = fedAggregate n (specSumAggregateArg ⟨rep, .federated member .clients ae⟩ member) :=
  rfl

/-- Claim C9: for every value handle represented as a non-empty per-child
list whose federated type has all_equal=true, compute materializes only
the first child handle (materialization trace [0]) and returns that
result; the remaining child handles are not materialized. -/
theorem compute_all_equal_list_materializes_first (h : Raw) (t : List Raw)
    (m : TffType) (p : Placement) :
    (CompositeValue.mk (.childList (h :: t)) (.federated m p true)).compute
      = .ok (h, [0]) := rfl

/-- Claim C10: a payload of oneof kind lambda is accepted by create_value
and wrapped unparsed, but create_call on it fails with the ValueError of
lines 297-300; a payload of oneof kind tensorflow is likewise wrapped and
is the only stored payload kind whose create_call proceeds (it is
delegated to the parent executor). -/
theorem only_tensorflow_payloads_invocable (ts : TffType) (argRaw : Option Raw)
    (p : TfPayload) :
    createValuePb .lambdaIdentity ts = .ok ⟨.comp .lambdaIdentity, ts⟩
    ∧ createCallComp .lambdaIdentity ts argRaw
        = .error (.valueError "directly calling computations of this kind is unsupported")
    ∧ createValuePb (.tensorflow p) ts = .ok ⟨.comp (.tensorflow p), ts⟩
    ∧ createCallComp (.tensorflow p) ts argRaw
        = (parentCallTensorflow p argRaw).map fun r => ⟨.delegate r, funcResultType ts⟩ :=
  ⟨rfl, rfl, rfl, rfl⟩

end ComposingExec
